import Mathlib

/-!
Verification of the two scripts of this repository:
  tests/internal/testopeninference/openai_proxy.py (an OpenAI-compatible
  pass-through proxy built on FastAPI) and examples/mcp/agent.py (an example
  command-line agent runner).
The upstream OpenAI/Azure client, the ASGI framework and the telemetry layer
are external collaborators: they are modelled abstractly (an upstream
behaviour is a function from the call the proxy makes to the result the SDK
would return), while every decision the scripts themselves make (routing,
the streaming branch, header plumbing, the except-block) is embedded
faithfully from the source.
-/

namespace AIGatewayProxy

/-- A JSON value, as produced by `request.json()` for the fields of the
request body. Numbers are modelled as integers; no claim touches
non-integral numbers. -/
inductive Json where
  | null : Json
  | bool (b : Bool) : Json
  | num (n : Int) : Json
  | str (s : String) : Json
  | arr (elems : List Json) : Json
  | obj (fields : List (String × Json)) : Json

/-- Python truthiness of a JSON value, as used by `if is_streaming:` on the
value of `request_data.get("stream", False)`: None, False, 0, empty string,
empty list and empty dict are falsy, everything else truthy. -/
def Json.truthy : Json → Bool
  | .null => false
  | .bool b => b
  | .num n => n != 0
  | .str s => s != ""
  | .arr elems => !elems.isEmpty
  | .obj fields => !fields.isEmpty

/-- An inbound proxied request: its HTTP headers and the parsed JSON body.
The body of every proxied route is a JSON object, modelled as the key/value
list of the Python dict `request_data`. -/
structure ProxyRequest where
  headers : List (String × String)
  body : List (String × Json)

/-- Starlette header lookup (`request.headers.get(name)`) is
case-insensitive. -/
def headerGet (headers : List (String × String)) (name : String) : Option String :=
  (headers.find? (fun p => p.1.toLower == name.toLower)).map Prod.snd

/-- `cassette_name = request.headers.get("X-Cassette-Name")`. -/
def cassetteName (req : ProxyRequest) : Option String :=
  headerGet req.headers "X-Cassette-Name"

/-- `extra_headers = {"X-Cassette-Name": cassette_name} if cassette_name else {}`:
the dict is attached only when the header value is truthy, i.e. present and
non-empty. -/
def extra_headers (req : ProxyRequest) : List (String × String) :=
  match cassetteName req with
  | some s => if s = "" then [] else [("X-Cassette-Name", s)]
  | none => []

/-- The two client flavours: `AsyncAzureOpenAI()` when the
AZURE_OPENAI_API_KEY environment variable is present, else `AsyncOpenAI()`. -/
inductive ClientFlavor where
  | azure : ClientFlavor
  | standard : ClientFlavor
deriving DecidableEq

/-- Module-level `client` selection:
`client = AsyncAzureOpenAI() if "AZURE_OPENAI_API_KEY" in os.environ else AsyncOpenAI()`
(presence of the key, whatever its value). -/
def selectClient (env : List (String × String)) : ClientFlavor :=
  if (env.lookup "AZURE_OPENAI_API_KEY").isSome then .azure else .standard

/-- The process state fixed at startup: the one upstream client the module
constructed. -/
structure Server where
  client : ClientFlavor

/-- Module initialisation: the client flavour is decided once, from the
environment, before any request is served. -/
def startServer (env : List (String × String)) : Server :=
  { client := selectClient env }

/-- The client methods the routes bind to. -/
inductive Method where
  | chatCompletionsCreate : Method
  | completionsCreate : Method
  | embeddingsCreate : Method
  | imagesGenerate : Method
deriving DecidableEq

/-- The fixed route set of the proxy (the Azure variants carry a deployment
path segment that the handlers ignore). -/
inductive Route where
  | chatCompletions : Route
  | azureChatCompletions (deployment : String) : Route
  | completions : Route
  | azureCompletions (deployment : String) : Route
  | embeddings : Route
  | azureEmbeddings (deployment : String) : Route
  | imagesGenerations : Route
  | azureImagesGenerations (deployment : String) : Route

/-- Which client method each route forwards to. -/
def routeMethod : Route → Method
  | .chatCompletions => .chatCompletionsCreate
  | .azureChatCompletions _ => .chatCompletionsCreate
  | .completions => .completionsCreate
  | .azureCompletions _ => .completionsCreate
  | .embeddings => .embeddingsCreate
  | .azureEmbeddings _ => .embeddingsCreate
  | .imagesGenerations => .imagesGenerate
  | .azureImagesGenerations _ => .imagesGenerate

/-- Whether a route belongs to the chat-completions / text-completions
family (these are the routes that pass an `is_streaming` argument). -/
def Route.isChatOrCompletions : Route → Bool
  | .chatCompletions => true
  | .azureChatCompletions _ => true
  | .completions => true
  | .azureCompletions _ => true
  | _ => false

/-- The `is_streaming` argument each route computes: the chat and
completions routes pass `request_data.get("stream", False)` (used for its
Python truthiness); the embeddings and images routes omit it, so it
defaults to False. -/
def is_streaming (route : Route) (body : List (String × Json)) : Bool :=
  if route.isChatOrCompletions then
    match body.lookup "stream" with
    | some v => v.truthy
    | none => false
  else
    false

/-- The single upstream invocation the proxy performs for a request: which
client it goes through, which method, the keyword arguments
(`**request_data`) and the `extra_headers` dict. -/
structure UpstreamCall where
  flavor : ClientFlavor
  method : Method
  body : List (String × Json)
  extraHeaders : List (String × String)

/-- The upstream call `handle_openai_request` makes for a given server,
route and request: `client_method(**request_data, extra_headers=extra_headers)`. -/
def upstreamCallOf (s : Server) (route : Route) (req : ProxyRequest) : UpstreamCall :=
  { flavor := s.client
    method := routeMethod route
    body := req.body
    extraHeaders := extra_headers req }

/-- An error response carried by an SDK exception: `e.response.status_code`,
`e.response.content` and `e.response.headers`. -/
structure ErrorResponse where
  status_code : Nat
  content : String
  headers : List (String × String)

/-- An exception raised by the upstream call: either an API error that
carries an HTTP response (`hasattr(e, "response") and
hasattr(e.response, "status_code")`), or any other exception with its
message `str(e)`. -/
inductive UpstreamError where
  | apiError (resp : ErrorResponse) : UpstreamError
  | other (message : String) : UpstreamError

/-- The abstract behaviour of the upstream SDK client: what a buffered call
returns (the `model_dump_json()` string of the response object, or an
exception), and what a streaming call produces (the `model_dump_json()`
strings of the chunks in arrival order, together with `none` when the
stream finishes cleanly or `some e` when an exception is raised while
obtaining or iterating the stream, after the listed chunks). -/
structure UpstreamBehavior where
  call : UpstreamCall → Except UpstreamError String
  stream : UpstreamCall → List String × Option UpstreamError

/-- The body of a proxy response: a single buffered document, or the
sequence of event frames a StreamingResponse writes. -/
inductive RespBody where
  | buffered (content : String) : RespBody
  | streamed (frames : List String) : RespBody

/-- Whether a response is delivered as an event stream. -/
def RespBody.isStreamed : RespBody → Bool
  | .buffered _ => false
  | .streamed _ => true

/-- The observable HTTP response of the proxy. -/
structure ProxyResponse where
  status : Nat
  body : RespBody
  mediaType : Option String
  headers : List (String × String)

/-- One server-sent-event frame: `f"data: {chunk_json}\n\n"`. -/
def dataFrame (chunkJson : String) : String :=
  "data: " ++ chunkJson ++ "\n\n"

/-- The terminating sentinel frame `"data: [DONE]\n\n"`. -/
def doneFrame : String :=
  "data: [DONE]\n\n"

/-- The frames the `stream_response` generator yields: one data frame per
chunk in arrival order; the sentinel follows only when the iteration ends
without an exception (an exception propagates out of the generator, after
the 200 response has started, and simply ends the stream). -/
def streamFrames : List String × Option UpstreamError → List String
  | (chunks, none) => chunks.map dataFrame ++ [doneFrame]
  | (chunks, some _) => chunks.map dataFrame

/-- Escaping of one character in a JSON string literal, as
`json.dumps` performs it on the characters that occur in practice
(backslash, quote, the common control characters, and `\u00XX` for the
remaining control characters). -/
def jsonEscapeChar (c : Char) : String :=
  if c = '\\' then "\\\\"
  else if c = '"' then "\\\""
  else if c = '\n' then "\\n"
  else if c = '\r' then "\\r"
  else if c = '\t' then "\\t"
  else if c.toNat < 32 then
    "\\u00" ++ String.mk [Nat.digitChar (c.toNat / 16), Nat.digitChar (c.toNat % 16)]
  else
    String.singleton c

/-- JSON string-literal escaping of a whole string. -/
def jsonEscape (s : String) : String :=
  String.join (s.toList.map jsonEscapeChar)

/-- `json.dumps({"error": str(e)})`. -/
def errorEnvelope (msg : String) : String :=
  "\x7b\"error\": \"" ++ jsonEscape msg ++ "\"\x7d"

/-- `handle_openai_request`, given the upstream behaviour, the call it is
about to make and the `is_streaming` flag. A streaming request returns the
StreamingResponse immediately (status 200, text/event-stream); the
generator body runs afterwards, so its exceptions never reach the
except-block. A buffered request awaits the upstream call: on success it
returns the serialized response with status 200; an exception carrying an
HTTP response is relayed with its exact status, content and headers;
any other exception becomes a 500 with a JSON error envelope. -/
def handle_openai_request (u : UpstreamBehavior) (call : UpstreamCall)
    (isStreaming : Bool) : ProxyResponse :=
  if isStreaming then
    { status := 200
      body := .streamed (streamFrames (u.stream call))
      mediaType := some "text/event-stream"
      headers := [] }
  else
    match u.call call with
    | .ok doc =>
        { status := 200
          body := .buffered doc
          mediaType := some "application/json"
          headers := [] }
    | .error (.apiError r) =>
        { status := r.status_code
          body := .buffered r.content
          mediaType := none
          headers := r.headers }
    | .error (.other msg) =>
        { status := 500
          body := .buffered (errorEnvelope msg)
          mediaType := some "application/json"
          headers := [] }

/-- A request dispatched through the route table: each route hands
`handle_openai_request` the module client, its bound method, the parsed
body and its `is_streaming` argument. -/
def handleRoute (u : UpstreamBehavior) (s : Server) (route : Route)
    (req : ProxyRequest) : ProxyResponse :=
  handle_openai_request u (upstreamCallOf s route req) (is_streaming route req.body)

end AIGatewayProxy

namespace AgentRunner

/-- The environment variables the agent runner reads as argument defaults. -/
structure AgentEnv where
  chatModel : Option String
  mcpUrl : Option String

/-- What the `__main__` block does after parsing: it either fails fast with
a diagnostic, or attempts the conversational run with whatever model and
MCP URL it resolved (possibly none). -/
inductive AgentAction where
  | failFast (message : String) : AgentAction
  | attemptRun (prompt : String) (model : Option String) (mcpUrl : Option String) : AgentAction

/-- Whether the action proceeds to the conversational run. -/
def AgentAction.attemptsRun : AgentAction → Bool
  | .failFast _ => false
  | .attemptRun _ _ _ => true

/-- The `__main__` block of agent.py: `--model` defaults to
`os.getenv("CHAT_MODEL")` and `--mcp-url` to `os.getenv("MCP_URL")`; after
printing the banner it calls `asyncio.run(main(prompt, args.model,
args.mcp_url))` unconditionally - no validation of either value happens
before the run is attempted. -/
def agentMain (env : AgentEnv) (prompt : String)
    (argModel argUrl : Option String) : AgentAction :=
  .attemptRun prompt (argModel <|> env.chatModel) (argUrl <|> env.mcpUrl)

/-- The outcome of `asyncio.run(main(...))`. -/
inductive RunResult where
  | success (finalOutput : String) : RunResult
  | error (message : String) : RunResult

/-- The process exit status: 0 on success; an exception from the run is
unhandled, so the interpreter exits with status 1. -/
def agentExitCode : RunResult → Nat
  | .success _ => 0
  | .error _ => 1

end AgentRunner

namespace AIGatewayProxy

/-- A sample upstream behaviour whose calls succeed, used to instantiate
the universally quantified theorems on concrete inputs. -/
def sampleOk : UpstreamBehavior :=
  { call := fun _ => .ok "\x7b\"id\": \"r1\"\x7d"
    stream := fun _ => (["\x7b\"i\": 0\x7d", "\x7b\"i\": 1\x7d"], none) }

/-- A sample API error carrying an HTTP response with status 429. -/
def rateLimited : UpstreamError :=
  .apiError { status_code := 429, content := "rate limited", headers := [] }

/-- A sample upstream behaviour that raises the 429 API error on every
call, and on streaming calls raises it after yielding one chunk. -/
def sampleStreamFail : UpstreamBehavior :=
  { call := fun _ => .error rateLimited
    stream := fun _ => (["\x7b\"i\": 0\x7d"], some rateLimited) }

/-- A sample upstream behaviour that raises the 429 API error on every
call, on streaming calls before yielding any chunk. -/
def sampleStreamFailImmediately : UpstreamBehavior :=
  { call := fun _ => .error rateLimited
    stream := fun _ => ([], some rateLimited) }

/-- C1: for every non-streaming request whose upstream call succeeds, the
proxy responds with status 200 and the body is exactly the serialized JSON
document the upstream client produced. -/
theorem nonstreaming_exact_passthrough (u : UpstreamBehavior) (s : Server)
    (route : Route) (req : ProxyRequest) (doc : String)
    (hns : is_streaming route req.body = false)
    (hok : u.call (upstreamCallOf s route req) = .ok doc) :
    (handleRoute u s route req).status = 200 ∧
    (handleRoute u s route req).body = .buffered doc := by
  simp [handleRoute, handle_openai_request, hns, hok]

/-- Witness for C1 at a concrete embeddings request. -/
theorem nonstreaming_exact_passthrough_witness :
    (handleRoute sampleOk ⟨.standard⟩ .embeddings ⟨[], []⟩).status = 200 ∧
    (handleRoute sampleOk ⟨.standard⟩ .embeddings ⟨[], []⟩).body =
      .buffered "\x7b\"id\": \"r1\"\x7d" :=
  nonstreaming_exact_passthrough sampleOk ⟨.standard⟩ .embeddings ⟨[], []⟩ _ rfl rfl

/-- C2: for every streaming request whose upstream stream ends cleanly,
the proxy answers with a text/event-stream whose frames are exactly one
data frame per upstream chunk, in arrival order, followed by exactly one
sentinel frame and nothing after it. -/
theorem streaming_frames_and_sentinel (u : UpstreamBehavior) (s : Server)
    (route : Route) (req : ProxyRequest) (chunks : List String)
    (hs : is_streaming route req.body = true)
    (hok : u.stream (upstreamCallOf s route req) = (chunks, none)) :
    (handleRoute u s route req).mediaType = some "text/event-stream" ∧
    (handleRoute u s route req).body =
      .streamed (chunks.map dataFrame ++ [doneFrame]) := by
  simp [handleRoute, handle_openai_request, hs, hok, streamFrames]

/-- Witness for C2 at a concrete chat-completions request with stream = true. -/
theorem streaming_frames_and_sentinel_witness :
    (handleRoute sampleOk ⟨.standard⟩ .chatCompletions
        ⟨[], [("stream", Json.bool true)]⟩).mediaType = some "text/event-stream" ∧
    (handleRoute sampleOk ⟨.standard⟩ .chatCompletions
        ⟨[], [("stream", Json.bool true)]⟩).body =
      .streamed ((["\x7b\"i\": 0\x7d", "\x7b\"i\": 1\x7d"]).map dataFrame ++ [doneFrame]) :=
  streaming_frames_and_sentinel sampleOk ⟨.standard⟩ .chatCompletions
    ⟨[], [("stream", Json.bool true)]⟩ _ rfl rfl

/-- C4: the inbound body reaches the upstream call with exactly its
original fields, and the proxy reads nothing else of it: the upstream call
carries the request body unchanged, and two upstream behaviours that agree
on calls carrying that original body produce identical proxy responses. -/
theorem body_forwarded_unmodified (u u2 : UpstreamBehavior) (s : Server)
    (route : Route) (req : ProxyRequest)
    (hcall : ∀ h, u2.call ⟨s.client, routeMethod route, req.body, h⟩ =
      u.call ⟨s.client, routeMethod route, req.body, h⟩)
    (hstream : ∀ h, u2.stream ⟨s.client, routeMethod route, req.body, h⟩ =
      u.stream ⟨s.client, routeMethod route, req.body, h⟩) :
    (upstreamCallOf s route req).body = req.body ∧
    handleRoute u2 s route req = handleRoute u s route req := by
  refine ⟨rfl, ?_⟩
  have hc : upstreamCallOf s route req =
      ⟨s.client, routeMethod route, req.body, extra_headers req⟩ := rfl
  unfold handleRoute handle_openai_request
  rw [hc, hcall (extra_headers req), hstream (extra_headers req)]

/-- Witness for C4 with two (identical) sample behaviours at a concrete
request. -/
theorem body_forwarded_unmodified_witness :
    (upstreamCallOf ⟨.standard⟩ .chatCompletions ⟨[], []⟩).body = [] ∧
    handleRoute sampleOk ⟨.standard⟩ .chatCompletions ⟨[], []⟩ =
      handleRoute sampleOk ⟨.standard⟩ .chatCompletions ⟨[], []⟩ :=
  body_forwarded_unmodified sampleOk sampleOk ⟨.standard⟩ .chatCompletions ⟨[], []⟩
    (fun _ => rfl) (fun _ => rfl)

/-- Presence of a key in the environment equals success of the lookup. -/
theorem lookup_isSome_iff_mem (key : String) (env : List (String × String)) :
    (env.lookup key).isSome ↔ key ∈ env.map Prod.fst := by
  induction env with
  | nil => simp [List.lookup]
  | cons p rest ih =>
    obtain ⟨k, v⟩ := p
    by_cases h : key = k
    · subst h
      simp [List.lookup]
    · have hbeq : (key == k) = false := by
        simp [h]
      simp [List.lookup, hbeq, h, ih]

/-- C7: the upstream client flavour is fixed once at startup - Azure
exactly when AZURE_OPENAI_API_KEY is present in the environment, standard
otherwise - and every request goes through that same client. -/
theorem client_selected_once_at_startup (env : List (String × String))
    (route : Route) (req : ProxyRequest) :
    ((startServer env).client = .azure ↔ "AZURE_OPENAI_API_KEY" ∈ env.map Prod.fst) ∧
    (upstreamCallOf (startServer env) route req).flavor = (startServer env).client := by
  refine ⟨?_, rfl⟩
  rw [← lookup_isSome_iff_mem]
  unfold startServer selectClient
  by_cases h : (env.lookup "AZURE_OPENAI_API_KEY").isSome
  · simp [h]
  · simp [h]

/-- C3 counterexample: a streaming request whose upstream call raises an
API error carrying an HTTP response (status 429, body "rate limited") is
answered with status 200 and an empty event stream, not with that status
and body: on streaming requests the exception is raised inside the
response generator, after the 200 response has started, so it never
reaches the except-block that relays API errors. -/
theorem error_passthrough_counterexample :
    (sampleStreamFailImmediately.stream (upstreamCallOf ⟨.standard⟩ .chatCompletions
        ⟨[], [("stream", Json.bool true)]⟩)).2 = some rateLimited ∧
    (handleRoute sampleStreamFailImmediately ⟨.standard⟩ .chatCompletions
        ⟨[], [("stream", Json.bool true)]⟩).status = 200 ∧
    (200 : Nat) ≠ 429 ∧
    (handleRoute sampleStreamFailImmediately ⟨.standard⟩ .chatCompletions
        ⟨[], [("stream", Json.bool true)]⟩).body = .streamed [] :=
  ⟨rfl, rfl, by decide, rfl⟩

/-- C3 (amended: restricted to non-streaming requests, since a streaming
upstream failure only truncates the event stream): for every non-streaming
request whose upstream call raises, an error carrying an HTTP response is
relayed with exactly its status code, body and headers, and every other
exception yields status 500 with the JSON error envelope. -/
theorem error_passthrough_nonstreaming (u : UpstreamBehavior) (s : Server)
    (route : Route) (req : ProxyRequest) (e : UpstreamError)
    (hns : is_streaming route req.body = false)
    (herr : u.call (upstreamCallOf s route req) = .error e) :
    handleRoute u s route req =
      match e with
      | .apiError r =>
          { status := r.status_code, body := .buffered r.content,
            mediaType := none, headers := r.headers }
      | .other msg =>
          { status := 500, body := .buffered (errorEnvelope msg),
            mediaType := some "application/json", headers := [] } := by
  cases e with
  | apiError r => simp [handleRoute, handle_openai_request, hns, herr]
  | other msg => simp [handleRoute, handle_openai_request, hns, herr]

/-- Witness for the amended C3 at a concrete embeddings request whose
upstream raises the 429 API error. -/
theorem error_passthrough_nonstreaming_witness :
    handleRoute sampleStreamFailImmediately ⟨.standard⟩ .embeddings ⟨[], []⟩ =
      { status := 429, body := .buffered "rate limited",
        mediaType := none, headers := [] } :=
  error_passthrough_nonstreaming sampleStreamFailImmediately ⟨.standard⟩ .embeddings
    ⟨[], []⟩ rateLimited rfl rfl

/-- C5 counterexample: with the X-Cassette-Name header present but holding
the empty string, the upstream call carries no cassette header at all,
while the claim requires a header with the identical (empty) value. -/
theorem cassette_header_counterexample :
    cassetteName ⟨[("X-Cassette-Name", "")], []⟩ = some "" ∧
    (upstreamCallOf ⟨.standard⟩ .chatCompletions
        ⟨[("X-Cassette-Name", "")], []⟩).extraHeaders = [] := by
  constructor
  · simp [cassetteName, headerGet, List.find?]
  · simp [upstreamCallOf, extra_headers, cassetteName, headerGet, List.find?]

/-- C5 (amended: propagation requires a non-empty value): the upstream call
carries an X-Cassette-Name header with value v exactly when the inbound
X-Cassette-Name header is present with that same non-empty value; a
missing or empty inbound header puts no cassette header on the upstream
call. -/
theorem cassette_header_propagation (s : Server) (route : Route)
    (req : ProxyRequest) (v : String) :
    (upstreamCallOf s route req).extraHeaders.lookup "X-Cassette-Name" = some v
      ↔ (cassetteName req = some v ∧ v ≠ "") := by
  show (extra_headers req).lookup "X-Cassette-Name" = some v ↔ _
  unfold extra_headers
  cases h : cassetteName req with
  | none => simp [List.lookup]
  | some s' =>
    by_cases he : s' = ""
    · subst he
      simp [List.lookup]
      exact fun hv => hv.symm
    · simp only [he, if_false, List.lookup, beq_self_eq_true, Option.some.injEq]
      constructor
      · intro hv
        subst hv
        exact ⟨rfl, he⟩
      · rintro ⟨hv, _⟩
        exact hv

/-- C10: a present-but-empty X-Cassette-Name header is treated exactly
like an absent one: no cassette header is sent upstream, and the upstream
call and the whole response coincide with those for the same request
carrying no headers at all. -/
theorem empty_cassette_like_absent (u : UpstreamBehavior) (s : Server)
    (route : Route) (headers : List (String × String)) (body : List (String × Json))
    (h : headerGet headers "X-Cassette-Name" = some "") :
    (upstreamCallOf s route ⟨headers, body⟩).extraHeaders = [] ∧
    upstreamCallOf s route ⟨headers, body⟩ = upstreamCallOf s route ⟨[], body⟩ ∧
    handleRoute u s route ⟨headers, body⟩ = handleRoute u s route ⟨[], body⟩ := by
  have h1 : extra_headers ⟨headers, body⟩ = [] := by
    have h2 : cassetteName ⟨headers, body⟩ = some "" := h
    simp [extra_headers, h2]
  have h3 : upstreamCallOf s route ⟨headers, body⟩ = upstreamCallOf s route ⟨[], body⟩ := by
    simp [upstreamCallOf, h1]
    rfl
  refine ⟨h1, h3, ?_⟩
  unfold handleRoute
  rw [h3]

/-- Witness for C10 at a concrete request whose cassette header is the
empty string. -/
theorem empty_cassette_like_absent_witness :
    (upstreamCallOf ⟨.standard⟩ .chatCompletions
        ⟨[("X-Cassette-Name", "")], []⟩).extraHeaders = [] ∧
    upstreamCallOf ⟨.standard⟩ .chatCompletions ⟨[("X-Cassette-Name", "")], []⟩ =
      upstreamCallOf ⟨.standard⟩ .chatCompletions ⟨[], []⟩ ∧
    handleRoute sampleOk ⟨.standard⟩ .chatCompletions ⟨[("X-Cassette-Name", "")], []⟩ =
      handleRoute sampleOk ⟨.standard⟩ .chatCompletions ⟨[], []⟩ :=
  empty_cassette_like_absent sampleOk ⟨.standard⟩ .chatCompletions
    [("X-Cassette-Name", "")] [] (by simp [headerGet, List.find?])

/-- C6 counterexample: a chat-completions body whose stream field is the
JSON number 1 (not the boolean true) still selects streaming mode, because
the code branches on the Python truthiness of
request_data.get("stream", False), not on equality with True. -/
theorem stream_flag_counterexample :
    is_streaming .chatCompletions [("stream", Json.num 1)] = true ∧
    ([("stream", Json.num 1)] : List (String × Json)).lookup "stream" ≠
      some (Json.bool true) ∧
    (handleRoute sampleOk ⟨.standard⟩ .chatCompletions
        ⟨[], [("stream", Json.num 1)]⟩).body.isStreamed = true := by
  refine ⟨rfl, ?_, rfl⟩
  intro hcontra
  have h2 : Json.num 1 = Json.bool true := Option.some.inj hcontra
  injection h2

/-- The streaming flag, spelt out: truthiness of the stream field on the
chat and completions routes, false elsewhere. -/
theorem is_streaming_eq (route : Route) (body : List (String × Json)) :
    is_streaming route body =
      (route.isChatOrCompletions &&
        ((body.lookup "stream").map Json.truthy).getD false) := by
  unfold is_streaming
  by_cases hc : route.isChatOrCompletions <;>
    cases hb : body.lookup "stream" <;> simp [hc, hb]

/-- C6 (amended: truthiness instead of equality with the boolean true):
on the chat-completions and text-completions routes (Azure variants
included) the response is an event stream exactly when the stream field is
present with a truthy value - the boolean true, but also any non-zero
number, non-empty string, array or object; absent or falsy values give a
buffered response, and the embeddings and image-generation routes always
answer with a buffered body whatever the body contains. -/
theorem stream_mode_selection (u : UpstreamBehavior) (s : Server)
    (route : Route) (req : ProxyRequest) :
    (handleRoute u s route req).body.isStreamed =
      (route.isChatOrCompletions &&
        ((req.body.lookup "stream").map Json.truthy).getD false) := by
  rw [← is_streaming_eq]
  unfold handleRoute handle_openai_request
  cases hs : is_streaming route req.body with
  | false =>
    cases hcall : u.call (upstreamCallOf s route req) with
    | ok doc => simp [hcall, RespBody.isStreamed]
    | error e => cases e <;> simp [hcall, RespBody.isStreamed]
  | true => simp [RespBody.isStreamed]

/-- C8: when the upstream stream raises - before the first chunk or
between chunks - the proxy output is exactly the data frames of the chunks
received so far: the sentinel frame is never appended, no error envelope
is emitted into the stream, and no retry produces further frames. -/
theorem stream_failure_terminates (u : UpstreamBehavior) (s : Server)
    (route : Route) (req : ProxyRequest) (chunks : List String) (e : UpstreamError)
    (hs : is_streaming route req.body = true)
    (herr : u.stream (upstreamCallOf s route req) = (chunks, some e)) :
    (handleRoute u s route req).body = .streamed (chunks.map dataFrame) ∧
    (handleRoute u s route req).body ≠
      .streamed (chunks.map dataFrame ++ [doneFrame]) := by
  have h1 : (handleRoute u s route req).body = .streamed (chunks.map dataFrame) := by
    simp [handleRoute, handle_openai_request, hs, herr, streamFrames]
  refine ⟨h1, ?_⟩
  rw [h1]
  intro hcontra
  have hlist : chunks.map dataFrame = chunks.map dataFrame ++ [doneFrame] :=
    by injection hcontra
  have hlen := congrArg List.length hlist
  simp at hlen

/-- Witness for C8 at a concrete chat-completions request whose upstream
stream fails after one chunk. -/
theorem stream_failure_terminates_witness :
    (handleRoute sampleStreamFail ⟨.standard⟩ .chatCompletions
        ⟨[], [("stream", Json.bool true)]⟩).body =
      .streamed ((["\x7b\"i\": 0\x7d"]).map dataFrame) ∧
    (handleRoute sampleStreamFail ⟨.standard⟩ .chatCompletions
        ⟨[], [("stream", Json.bool true)]⟩).body ≠
      .streamed ((["\x7b\"i\": 0\x7d"]).map dataFrame ++ [doneFrame]) :=
  stream_failure_terminates sampleStreamFail ⟨.standard⟩ .chatCompletions
    ⟨[], [("stream", Json.bool true)]⟩ _ rateLimited rfl rfl

end AIGatewayProxy

namespace AgentRunner

/-- C9 counterexample: started with no model and no MCP URL from any
source (no flags, CHAT_MODEL and MCP_URL unset), the runner does not fail
fast: it proceeds to attempt the conversational run with both values
missing. -/
theorem agent_fail_fast_counterexample :
    (agentMain ⟨none, none⟩ "hi" none none).attemptsRun = true ∧
    agentMain ⟨none, none⟩ "hi" none none = .attemptRun "hi" none none :=
  ⟨rfl, rfl⟩

/-- C9 (amended: no fail-fast validation exists): for every environment
and argument combination the runner proceeds to attempt the conversational
run with the resolved model and URL (argument value, else environment
variable, else missing), performing no up-front validation; an error
raised during the run is unhandled and terminates the process with a
non-zero exit status. -/
theorem agent_no_validation (env : AgentEnv) (prompt : String)
    (argModel argUrl : Option String) (msg : String) :
    (agentMain env prompt argModel argUrl).attemptsRun = true ∧
    agentMain env prompt argModel argUrl =
      .attemptRun prompt (argModel <|> env.chatModel) (argUrl <|> env.mcpUrl) ∧
    agentExitCode (.error msg) ≠ 0 := by
  refine ⟨rfl, rfl, ?_⟩
  simp [agentExitCode]

end AgentRunner
